import Mathlib

/-!
Shallow embedding of the resilient-execution subsystem (`src/utils/retry.py`):
the `RetryConfig` policy class, the `with_retry` (propagate) and
`silent_retry` (suppress) decorators, and the three policy presets.

Modelling choices:
* Python exception classes relevant to the module are listed in `ExcClass`,
  with their real (CPython / `requests`) inheritance chains in `ancestors`.
  Every class modelled here derives from `Exception`, matching the classes
  the module's `except` clauses can observe.
* A raised exception is a `PyExc`: a class plus a numeric payload standing
  for the message, so distinct failures are distinguishable.
* Durations are exact rationals; `time.sleep` is recorded in the trace
  rather than performed.
* A wrapped operation is `op : Nat → Except PyExc α`, giving the outcome of
  its k-th invocation (0-based).
* `max_retries` is an `Int`, as in Python, so that `range(max_retries + 1)`
  with a negative value (an empty loop, hence Python's implicit `return
  None`) is representable; the loop is recursion on the remaining iteration
  count `(max_retries + 1).toNat`.
-/

namespace RetryModel

/-- Python exception classes occurring in `src/utils/retry.py`. -/
inductive ExcClass where
  | Exception
  | OSError
  | ConnectionError
  | TimeoutError
  | ValueError
  | RequestException
  | RequestsConnectionError
  | HTTPError
  | Timeout
  | TooManyRedirects
  | RetryableError
deriving DecidableEq

/-- The inheritance chain (the class itself first, `Exception` last), as in
CPython and `requests`: `RequestException` derives from `IOError = OSError`;
`requests.ConnectionError`, `HTTPError`, `Timeout`, `TooManyRedirects`
derive from `RequestException`; builtin `ConnectionError` and `TimeoutError`
derive from `OSError`; `ValueError` and the module's `RetryableError` derive
from `Exception`. -/
def ancestors : ExcClass → List ExcClass
  | .Exception => [.Exception]
  | .OSError => [.OSError, .Exception]
  | .ConnectionError => [.ConnectionError, .OSError, .Exception]
  | .TimeoutError => [.TimeoutError, .OSError, .Exception]
  | .ValueError => [.ValueError, .Exception]
  | .RequestException => [.RequestException, .OSError, .Exception]
  | .RequestsConnectionError =>
      [.RequestsConnectionError, .RequestException, .OSError, .Exception]
  | .HTTPError => [.HTTPError, .RequestException, .OSError, .Exception]
  | .Timeout => [.Timeout, .RequestException, .OSError, .Exception]
  | .TooManyRedirects =>
      [.TooManyRedirects, .RequestException, .OSError, .Exception]
  | .RetryableError => [.RetryableError, .Exception]

/-- A raised exception instance: its class and a payload standing for the
message. -/
structure PyExc where
  cls : ExcClass
  msg : Nat
deriving DecidableEq

/-- Python `isinstance(e, c)`. -/
def isInstance (e : PyExc) (c : ExcClass) : Bool :=
  (ancestors e.cls).contains c

/-- Whether `except (c₁, c₂, …)` catches `e`: true iff `e` is an instance of
some class in the tuple. -/
def catches (tuple : List ExcClass) (e : PyExc) : Bool :=
  tuple.any (fun c => isInstance e c)

/-- The `RetryConfig` class: `max_retries`, `delay`, `delay_factor`,
`max_delay`, `retry_on_exceptions` (the resolved tuple). -/
structure RetryConfig where
  max_retries : Int
  delay : ℚ
  delay_factor : ℚ
  max_delay : ℚ
  retry_on_exceptions : List ExcClass
deriving DecidableEq

/-- The default tuple substituted by `RetryConfig.__init__` when
`retry_on_exceptions` is `None`. -/
def defaultRetryOn : List ExcClass :=
  [.RequestException, .RequestsConnectionError, .HTTPError, .Timeout,
   .TooManyRedirects, .ConnectionError, .TimeoutError, .Exception]

/-- `RetryConfig.__init__`: stores the four numeric fields unvalidated and
resolves `retry_on_exceptions = None` to the default tuple. -/
def RetryConfig.init (max_retries : Int) (delay delay_factor max_delay : ℚ)
    (retry_on_exceptions : Option (List ExcClass)) : RetryConfig :=
  { max_retries := max_retries
    delay := delay
    delay_factor := delay_factor
    max_delay := max_delay
    retry_on_exceptions := retry_on_exceptions.getD defaultRetryOn }

/-- `DEFAULT_RETRY_CONFIG = RetryConfig()` with the constructor defaults. -/
def DEFAULT_RETRY_CONFIG : RetryConfig :=
  RetryConfig.init 3 1 2 60 none

/-- `LLM_RETRY_CONFIG`. -/
def LLM_RETRY_CONFIG : RetryConfig :=
  RetryConfig.init 6 60 2 600 none

/-- `SEARCH_API_RETRY_CONFIG`. -/
def SEARCH_API_RETRY_CONFIG : RetryConfig :=
  RetryConfig.init 5 2 (8/5) 25 none

/-- `DB_RETRY_CONFIG`. -/
def DB_RETRY_CONFIG : RetryConfig :=
  RetryConfig.init 5 1 (3/2) 10 none

/-- Python's builtin `min` on two numbers: the first argument when it is
not greater. -/
def pymin (a b : ℚ) : ℚ :=
  if a ≤ b then a else b

/-- The delay expression computed inside both loops:
`min(config.delay * (config.delay_factor ** retry), config.max_delay)`. -/
def delayForAttempt (cfg : RetryConfig) (n : Nat) : ℚ :=
  pymin (cfg.delay * cfg.delay_factor ^ n) cfg.max_delay

variable {α : Type}

/-- Terminal outcome of one run of a `with_retry`-wrapped call. -/
inductive POutcome (α : Type) where
  | success (v : α)
  | raised (e : PyExc)
  | fatalRaised (e : PyExc)
  | noneFallthrough
deriving DecidableEq

/-- Terminal outcome of one run of a `silent_retry`-wrapped call. -/
inductive SOutcome (α : Type) where
  | success (v : α)
  | defaulted
  | fatalDefaulted
  | noneFallthrough
deriving DecidableEq

/-- Trace of a run: terminal outcome, number of invocations of the wrapped
operation, and the sleeps performed (in order). -/
structure Trace (ω : Type) where
  outcome : ω
  calls : Nat
  delays : List ℚ
deriving DecidableEq

/-- The `for retry in range(config.max_retries + 1)` loop of `with_retry`,
by recursion on the remaining number of iterations `rem`; `retry` is the
current loop index. Success returns the value; a caught retryable exception
re-raises at `retry == config.max_retries` and otherwise sleeps
`delayForAttempt` and continues; an exception outside the tuple re-raises
at once; an exhausted loop falls through (Python returns `None`). -/
def withRetryLoop (cfg : RetryConfig) (op : Nat → Except PyExc α) :
    Nat → Nat → Trace (POutcome α)
  | _, 0 => ⟨.noneFallthrough, 0, []⟩
  | retry, rem + 1 =>
    match op retry with
    | .ok v => ⟨.success v, 1, []⟩
    | .error e =>
      if catches cfg.retry_on_exceptions e then
        if (retry : Int) = cfg.max_retries then
          ⟨.raised e, 1, []⟩
        else
          let d := delayForAttempt cfg retry
          let t := withRetryLoop cfg op (retry + 1) rem
          ⟨t.outcome, t.calls + 1, d :: t.delays⟩
      else
        ⟨.fatalRaised e, 1, []⟩

/-- One run of the wrapper produced by `with_retry` for an explicit config. -/
def withRetryRun (cfg : RetryConfig) (op : Nat → Except PyExc α) :
    Trace (POutcome α) :=
  withRetryLoop cfg op 0 (cfg.max_retries + 1).toNat

/-- `with_retry(config)` applied to `op` and run once: `config = None` falls
back to `DEFAULT_RETRY_CONFIG`. -/
def with_retry (cfgOpt : Option RetryConfig) (op : Nat → Except PyExc α) :
    Trace (POutcome α) :=
  withRetryRun (cfgOpt.getD DEFAULT_RETRY_CONFIG) op

/-- The Python value a `with_retry` run delivers: `Except.error` when an
exception is re-raised, `Except.ok none` for the implicit `None` of a fallen-
through loop, `Except.ok (some v)` on success. -/
def withRetryValue : POutcome α → Except PyExc (Option α)
  | .success v => .ok (some v)
  | .raised e => .error e
  | .fatalRaised e => .error e
  | .noneFallthrough => .ok none

/-- The `for retry in range(config.max_retries + 1)` loop of `silent_retry`:
as `withRetryLoop`, but both terminal failure branches return the default
value instead of raising. -/
def silentRetryLoop (cfg : RetryConfig) (op : Nat → Except PyExc α) :
    Nat → Nat → Trace (SOutcome α)
  | _, 0 => ⟨.noneFallthrough, 0, []⟩
  | retry, rem + 1 =>
    match op retry with
    | .ok v => ⟨.success v, 1, []⟩
    | .error e =>
      if catches cfg.retry_on_exceptions e then
        if (retry : Int) = cfg.max_retries then
          ⟨.defaulted, 1, []⟩
        else
          let d := delayForAttempt cfg retry
          let t := silentRetryLoop cfg op (retry + 1) rem
          ⟨t.outcome, t.calls + 1, d :: t.delays⟩
      else
        ⟨.fatalDefaulted, 1, []⟩

/-- One run of the wrapper produced by `silent_retry` for an explicit
config. -/
def silentRetryRun (cfg : RetryConfig) (op : Nat → Except PyExc α) :
    Trace (SOutcome α) :=
  silentRetryLoop cfg op 0 (cfg.max_retries + 1).toNat

/-- `silent_retry(config, default_return)` applied to `op` and run once:
`config = None` falls back to `SEARCH_API_RETRY_CONFIG`. -/
def silent_retry (cfgOpt : Option RetryConfig) (op : Nat → Except PyExc α) :
    Trace (SOutcome α) :=
  silentRetryRun (cfgOpt.getD SEARCH_API_RETRY_CONFIG) op

/-- The Python value a `silent_retry` run delivers (`default` is
`default_return`, itself a Python value, `none` meaning Python `None`):
the default on either terminal failure branch, `none` for the implicit
`None` of a fallen-through loop. No branch raises. -/
def silentRetryValue (default : Option α) : SOutcome α → Option α
  | .success v => some v
  | .defaulted => default
  | .fatalDefaulted => default
  | .noneFallthrough => none

/-- An operation failing on every invocation with a builtin
`ConnectionError` (retryable under the default tuple). -/
def alwaysConnError : Nat → Except PyExc Unit :=
  fun _ => .error ⟨.ConnectionError, 0⟩

/-- An operation failing on every invocation with a `ValueError`
(a validation error; still an `Exception` instance). -/
def alwaysValueError : Nat → Except PyExc Unit :=
  fun _ => .error ⟨.ValueError, 0⟩

/-- An operation failing with a builtin `ConnectionError` on its first three
invocations and succeeding from the fourth on. -/
def connThenOk : Nat → Except PyExc Unit :=
  fun k => if k < 3 then .error ⟨.ConnectionError, k⟩ else .ok ()

/-- A config with an explicitly narrowed tuple, as a call site wanting
strict classification would build: only `ConnectionError` is retryable. -/
def narrowedConfig : RetryConfig :=
  RetryConfig.init 3 1 2 60 (some [.ConnectionError])

/-- Whether a `with_retry` run terminated through the non-retryable
`except Exception` branch. -/
def POutcome.viaFatalBranch : POutcome α → Bool
  | .fatalRaised _ => true
  | _ => false

/-- Whether a `with_retry` run terminated by falling through the loop. -/
def POutcome.viaFallthrough : POutcome α → Bool
  | .noneFallthrough => true
  | _ => false

/-- Whether a `silent_retry` run terminated through the non-retryable
`except Exception` branch. -/
def SOutcome.viaFatalBranch : SOutcome α → Bool
  | .fatalDefaulted => true
  | _ => false

/-- Whether a `silent_retry` run terminated by falling through the loop. -/
def SOutcome.viaFallthrough : SOutcome α → Bool
  | .noneFallthrough => true
  | _ => false

/-- An operation that raises a retryable exception (one caught by the
config's tuple) on every invocation. -/
def alwaysRetryFail (cfg : RetryConfig) (op : Nat → Except PyExc α) : Prop :=
  ∀ k, ∃ e, op k = .error e ∧ catches cfg.retry_on_exceptions e = true

example : (with_retry none alwaysConnError).calls = 4 := by decide
example : (silent_retry none alwaysConnError).calls = 6 := by decide
example : (with_retry none alwaysValueError).outcome
    = .raised ⟨.ValueError, 0⟩ := by decide
example :
    (withRetryRun (RetryConfig.init 3 1 2 60 (some [.ConnectionError]))
      alwaysValueError).calls = 1 := by decide
example :
    (withRetryRun (RetryConfig.init (-1) 1 2 60 none) alwaysConnError).calls
      = 0 := by decide

/-- Python's `min` agrees with the order-theoretic `min` on ℚ. -/
theorem pymin_eq_min (a b : ℚ) : pymin a b = min a b :=
  (min_def a b).symm

/-- One-step unfolding of the `with_retry` loop body. -/
theorem withRetryLoop_step (cfg : RetryConfig) (op : Nat → Except PyExc α)
    (retry rem : Nat) :
    withRetryLoop cfg op retry (rem + 1) =
      match op retry with
      | .ok v => ⟨.success v, 1, []⟩
      | .error e =>
        if catches cfg.retry_on_exceptions e then
          if (retry : Int) = cfg.max_retries then
            ⟨.raised e, 1, []⟩
          else
            ⟨(withRetryLoop cfg op (retry + 1) rem).outcome,
             (withRetryLoop cfg op (retry + 1) rem).calls + 1,
             delayForAttempt cfg retry ::
               (withRetryLoop cfg op (retry + 1) rem).delays⟩
        else
          ⟨.fatalRaised e, 1, []⟩ := rfl

/-- One-step unfolding of the `silent_retry` loop body. -/
theorem silentRetryLoop_step (cfg : RetryConfig) (op : Nat → Except PyExc α)
    (retry rem : Nat) :
    silentRetryLoop cfg op retry (rem + 1) =
      match op retry with
      | .ok v => ⟨.success v, 1, []⟩
      | .error e =>
        if catches cfg.retry_on_exceptions e then
          if (retry : Int) = cfg.max_retries then
            ⟨.defaulted, 1, []⟩
          else
            ⟨(silentRetryLoop cfg op (retry + 1) rem).outcome,
             (silentRetryLoop cfg op (retry + 1) rem).calls + 1,
             delayForAttempt cfg retry ::
               (silentRetryLoop cfg op (retry + 1) rem).delays⟩
        else
          ⟨.fatalDefaulted, 1, []⟩ := rfl

/-- On an always-retryably-failing operation, the `with_retry` loop started
at index `retry` with `rem + 1` iterations left, positioned so that the last
iteration has index `max_retries`, performs `rem + 1` invocations and ends
by re-raising. -/
theorem withRetryLoop_fail (cfg : RetryConfig) (op : Nat → Except PyExc α)
    (hop : alwaysRetryFail cfg op) :
    ∀ (rem retry : Nat), (retry : Int) + rem = cfg.max_retries →
      (withRetryLoop cfg op retry (rem + 1)).calls = rem + 1 ∧
      ∃ e, (withRetryLoop cfg op retry (rem + 1)).outcome = POutcome.raised e := by
  intro rem
  induction rem with
  | zero =>
    intro retry hinv
    obtain ⟨e, he, hc⟩ := hop retry
    have heq : (retry : Int) = cfg.max_retries := by omega
    simp [withRetryLoop, he, hc, heq]
  | succ rem ih =>
    intro retry hinv
    obtain ⟨e, he, hc⟩ := hop retry
    have hne : ¬ ((retry : Int) = cfg.max_retries) := by omega
    have hih := ih (retry + 1) (by push_cast; omega)
    rw [withRetryLoop_step]
    simp only [he, hc, if_true, if_neg hne, ite_true]
    exact ⟨by rw [hih.1], hih.2⟩

/-- Counterpart of `withRetryLoop_fail` for the `silent_retry` loop: the
run ends in the exhaustion branch (returning the default). -/
theorem silentRetryLoop_fail (cfg : RetryConfig) (op : Nat → Except PyExc α)
    (hop : alwaysRetryFail cfg op) :
    ∀ (rem retry : Nat), (retry : Int) + rem = cfg.max_retries →
      (silentRetryLoop cfg op retry (rem + 1)).calls = rem + 1 ∧
      (silentRetryLoop cfg op retry (rem + 1)).outcome = SOutcome.defaulted := by
  intro rem
  induction rem with
  | zero =>
    intro retry hinv
    obtain ⟨e, he, hc⟩ := hop retry
    have heq : (retry : Int) = cfg.max_retries := by omega
    simp [silentRetryLoop, he, hc, heq]
  | succ rem ih =>
    intro retry hinv
    obtain ⟨e, he, hc⟩ := hop retry
    have hne : ¬ ((retry : Int) = cfg.max_retries) := by omega
    have hih := ih (retry + 1) (by push_cast; omega)
    rw [silentRetryLoop_step]
    simp only [he, hc, if_true, if_neg hne, ite_true]
    exact ⟨by rw [hih.1], hih.2⟩

/-- On an operation failing on every invocation with any mix of
classifications, the `silent_retry` loop ends in one of its two
default-returning branches. -/
theorem silentRetryLoop_anyFail (cfg : RetryConfig) (op : Nat → Except PyExc α)
    (hop : ∀ k, ∃ e, op k = .error e) :
    ∀ (rem retry : Nat), (retry : Int) + rem = cfg.max_retries →
      (silentRetryLoop cfg op retry (rem + 1)).outcome = SOutcome.defaulted ∨
      (silentRetryLoop cfg op retry (rem + 1)).outcome = SOutcome.fatalDefaulted := by
  intro rem
  induction rem with
  | zero =>
    intro retry hinv
    obtain ⟨e, he⟩ := hop retry
    have heq : (retry : Int) = cfg.max_retries := by omega
    by_cases hc : catches cfg.retry_on_exceptions e = true
    · simp [silentRetryLoop, he, hc, heq]
    · simp [silentRetryLoop, he, hc]
  | succ rem ih =>
    intro retry hinv
    obtain ⟨e, he⟩ := hop retry
    have hne : ¬ ((retry : Int) = cfg.max_retries) := by omega
    by_cases hc : catches cfg.retry_on_exceptions e = true
    · have hih := ih (retry + 1) (by push_cast; omega)
      rw [silentRetryLoop_step]
      simp only [he, hc, if_true, if_neg hne, ite_true]
      exact hih
    · simp [silentRetryLoop, he, hc]

/-- The `with_retry` loop never falls through when positioned so that the
last iteration has index `max_retries`, whatever the operation does. -/
theorem withRetryLoop_no_fallthrough (cfg : RetryConfig)
    (op : Nat → Except PyExc α) :
    ∀ (rem retry : Nat), (retry : Int) + rem = cfg.max_retries →
      (withRetryLoop cfg op retry (rem + 1)).outcome ≠ POutcome.noneFallthrough := by
  intro rem
  induction rem with
  | zero =>
    intro retry hinv
    have heq : (retry : Int) = cfg.max_retries := by omega
    match hres : op retry with
    | .ok v => simp [withRetryLoop, hres]
    | .error e =>
      by_cases hc : catches cfg.retry_on_exceptions e = true
      · simp [withRetryLoop, hres, hc, heq]
      · simp [withRetryLoop, hres, hc]
  | succ rem ih =>
    intro retry hinv
    have hne : ¬ ((retry : Int) = cfg.max_retries) := by omega
    match hres : op retry with
    | .ok v => simp [withRetryLoop, hres]
    | .error e =>
      by_cases hc : catches cfg.retry_on_exceptions e = true
      · have hih := ih (retry + 1) (by push_cast; omega)
        rw [withRetryLoop_step]
        simp only [hres, hc, if_true, if_neg hne, ite_true]
        exact hih
      · simp [withRetryLoop, hres, hc]

/-- Counterpart of `withRetryLoop_no_fallthrough` for the `silent_retry`
loop. -/
theorem silentRetryLoop_no_fallthrough (cfg : RetryConfig)
    (op : Nat → Except PyExc α) :
    ∀ (rem retry : Nat), (retry : Int) + rem = cfg.max_retries →
      (silentRetryLoop cfg op retry (rem + 1)).outcome ≠ SOutcome.noneFallthrough := by
  intro rem
  induction rem with
  | zero =>
    intro retry hinv
    have heq : (retry : Int) = cfg.max_retries := by omega
    match hres : op retry with
    | .ok v => simp [silentRetryLoop, hres]
    | .error e =>
      by_cases hc : catches cfg.retry_on_exceptions e = true
      · simp [silentRetryLoop, hres, hc, heq]
      · simp [silentRetryLoop, hres, hc]
  | succ rem ih =>
    intro retry hinv
    have hne : ¬ ((retry : Int) = cfg.max_retries) := by omega
    match hres : op retry with
    | .ok v => simp [silentRetryLoop, hres]
    | .error e =>
      by_cases hc : catches cfg.retry_on_exceptions e = true
      · have hih := ih (retry + 1) (by push_cast; omega)
        rw [silentRetryLoop_step]
        simp only [hres, hc, if_true, if_neg hne, ite_true]
        exact hih
      · simp [silentRetryLoop, hres, hc]

/-- When the config's tuple catches every exception, the non-retryable
branch of the `with_retry` loop is unreachable, whatever the operation and
position. -/
theorem withRetryLoop_no_fatal (cfg : RetryConfig) (op : Nat → Except PyExc α)
    (hcat : ∀ e, catches cfg.retry_on_exceptions e = true) :
    ∀ (rem retry : Nat),
      ((withRetryLoop cfg op retry rem).outcome).viaFatalBranch = false := by
  intro rem
  induction rem with
  | zero => intro retry; simp [withRetryLoop, POutcome.viaFatalBranch]
  | succ rem ih =>
    intro retry
    rw [withRetryLoop_step]
    match hres : op retry with
    | .ok v => simp [POutcome.viaFatalBranch]
    | .error e =>
      have hc := hcat e
      by_cases heq : (retry : Int) = cfg.max_retries
      · simp [hc, heq, POutcome.viaFatalBranch]
      · simp only [hc, if_true, ite_true, if_neg heq]
        exact ih (retry + 1)

/-- Counterpart of `withRetryLoop_no_fatal` for the `silent_retry` loop. -/
theorem silentRetryLoop_no_fatal (cfg : RetryConfig) (op : Nat → Except PyExc α)
    (hcat : ∀ e, catches cfg.retry_on_exceptions e = true) :
    ∀ (rem retry : Nat),
      ((silentRetryLoop cfg op retry rem).outcome).viaFatalBranch = false := by
  intro rem
  induction rem with
  | zero => intro retry; simp [silentRetryLoop, SOutcome.viaFatalBranch]
  | succ rem ih =>
    intro retry
    rw [silentRetryLoop_step]
    match hres : op retry with
    | .ok v => simp [SOutcome.viaFatalBranch]
    | .error e =>
      have hc := hcat e
      by_cases heq : (retry : Int) = cfg.max_retries
      · simp [hc, heq, SOutcome.viaFatalBranch]
      · simp only [hc, if_true, ite_true, if_neg heq]
        exact ih (retry + 1)

/-- An operation failing retryably at every index of the window and
succeeding right after it drives the `with_retry` loop to a success with
one invocation per iteration. -/
theorem withRetryLoop_succeeds (cfg : RetryConfig) (op : Nat → Except PyExc α)
    (v : α) :
    ∀ (rem retry : Nat), (retry : Int) + rem = cfg.max_retries →
      (∀ k, retry ≤ k → k < retry + rem →
        ∃ e, op k = .error e ∧ catches cfg.retry_on_exceptions e = true) →
      op (retry + rem) = .ok v →
      (withRetryLoop cfg op retry (rem + 1)).outcome = POutcome.success v ∧
      (withRetryLoop cfg op retry (rem + 1)).calls = rem + 1 := by
  intro rem
  induction rem with
  | zero =>
    intro retry hinv hfail hok
    rw [Nat.add_zero] at hok
    rw [withRetryLoop_step]
    simp [hok]
  | succ rem ih =>
    intro retry hinv hfail hok
    obtain ⟨e, he, hc⟩ := hfail retry (Nat.le_refl _) (by omega)
    have hne : ¬ ((retry : Int) = cfg.max_retries) := by omega
    have hih := ih (retry + 1) (by push_cast; omega)
      (fun k hk1 hk2 => hfail k (by omega) (by omega))
      (by rw [show retry + 1 + rem = retry + (rem + 1) by omega]; exact hok)
    rw [withRetryLoop_step]
    simp only [he, hc, if_true, ite_true, if_neg hne]
    exact ⟨hih.1, by rw [hih.2]⟩

/-- For a non-negative retry budget, the run performs
`max_retries.toNat + 1` loop iterations at most (`with_retry` form). -/
theorem withRetryRun_eq_loop (cfg : RetryConfig) (op : Nat → Except PyExc α)
    (h : 0 ≤ cfg.max_retries) :
    withRetryRun cfg op = withRetryLoop cfg op 0 (cfg.max_retries.toNat + 1) := by
  unfold withRetryRun
  congr 1
  omega

/-- For a non-negative retry budget, the run performs
`max_retries.toNat + 1` loop iterations at most (`silent_retry` form). -/
theorem silentRetryRun_eq_loop (cfg : RetryConfig) (op : Nat → Except PyExc α)
    (h : 0 ≤ cfg.max_retries) :
    silentRetryRun cfg op = silentRetryLoop cfg op 0 (cfg.max_retries.toNat + 1) := by
  unfold silentRetryRun
  congr 1
  omega

/-- The loop-start invariant for a non-negative budget. -/
theorem start_invariant (cfg : RetryConfig) (h : 0 ≤ cfg.max_retries) :
    ((0 : Nat) : Int) + (cfg.max_retries.toNat : Int) = cfg.max_retries := by
  omega

/-- A `with_retry` outcome other than the fallthrough is not flagged as a
fallthrough. -/
theorem POutcome.viaFallthrough_of_ne_p (o : POutcome α)
    (h : o ≠ POutcome.noneFallthrough) : o.viaFallthrough = false := by
  cases o
  case noneFallthrough => exact absurd rfl h
  all_goals rfl

/-- A `silent_retry` outcome other than the fallthrough is not flagged as a
fallthrough. -/
theorem SOutcome.viaFallthrough_of_ne_s (o : SOutcome α)
    (h : o ≠ SOutcome.noneFallthrough) : o.viaFallthrough = false := by
  cases o
  case noneFallthrough => exact absurd rfl h
  all_goals rfl

/-- C1, counterexample: under the default policy (config omitted) a
`ValueError` — a validation/malformed-input error — is caught by the
default tuple (it contains `Exception`) and retried like a transient
failure: `with_retry` invokes the operation 4 times (budget 3 exhausted)
and then re-raises, and `silent_retry` under its fallback config invokes
it 6 times; it is not treated as fatal and not invoked exactly once. -/
theorem c1_counterexample :
    (with_retry none alwaysValueError).calls = 4 ∧
    (with_retry none alwaysValueError).outcome
      = POutcome.raised ⟨ExcClass.ValueError, 0⟩ ∧
    (silent_retry none alwaysValueError).calls = 6 :=
  ⟨by decide, by decide, by decide⟩

/-- C1, amended: validation and malformed-input errors are fatal exactly
under the policies whose `retry_on_exceptions` tuple excludes them. For
every such policy with a non-negative budget, an operation raising an
excluded error is invoked exactly once with no delay; the failure is
re-raised under `with_retry` and converted to the default value under
`silent_retry`. Under the default policy (whose tuple contains
`Exception`) such errors are retryable and are retried up to the budget. -/
theorem c1_fatal_only_when_excluded (cfg : RetryConfig)
    (h : 0 ≤ cfg.max_retries) (op : Nat → Except PyExc α) (e : PyExc)
    (d : Option α) (hop : op 0 = .error e)
    (hc : catches cfg.retry_on_exceptions e = false) :
    (withRetryRun cfg op).calls = 1 ∧
    (withRetryRun cfg op).outcome = POutcome.fatalRaised e ∧
    (withRetryRun cfg op).delays = [] ∧
    withRetryValue (withRetryRun cfg op).outcome = Except.error e ∧
    (silentRetryRun cfg op).calls = 1 ∧
    (silentRetryRun cfg op).outcome = SOutcome.fatalDefaulted ∧
    (silentRetryRun cfg op).delays = [] ∧
    silentRetryValue d (silentRetryRun cfg op).outcome = d := by
  rw [withRetryRun_eq_loop cfg op h, silentRetryRun_eq_loop cfg op h,
    withRetryLoop_step, silentRetryLoop_step]
  simp [hop, hc, withRetryValue, silentRetryValue]

/-- C1, witness: the amended statement at the narrowed config, a
`ValueError`-raising operation and default value `some ()`. -/
theorem c1_witness :
    0 ≤ narrowedConfig.max_retries ∧
    alwaysValueError 0 = Except.error ⟨ExcClass.ValueError, 0⟩ ∧
    catches narrowedConfig.retry_on_exceptions ⟨ExcClass.ValueError, 0⟩
      = false ∧
    ((withRetryRun narrowedConfig alwaysValueError).calls = 1 ∧
     (withRetryRun narrowedConfig alwaysValueError).outcome
       = POutcome.fatalRaised ⟨ExcClass.ValueError, 0⟩ ∧
     (withRetryRun narrowedConfig alwaysValueError).delays = [] ∧
     withRetryValue (withRetryRun narrowedConfig alwaysValueError).outcome
       = Except.error ⟨ExcClass.ValueError, 0⟩ ∧
     (silentRetryRun narrowedConfig alwaysValueError).calls = 1 ∧
     (silentRetryRun narrowedConfig alwaysValueError).outcome
       = SOutcome.fatalDefaulted ∧
     (silentRetryRun narrowedConfig alwaysValueError).delays = [] ∧
     silentRetryValue (some ())
       (silentRetryRun narrowedConfig alwaysValueError).outcome = some ()) :=
  ⟨by decide, rfl, by decide,
   c1_fatal_only_when_excluded narrowedConfig (by decide) alwaysValueError
     ⟨ExcClass.ValueError, 0⟩ (some ()) rfl (by decide)⟩

/-- C2: for every policy with a non-negative budget `r = max_retries`, an
operation raising a retryable (tuple-caught) exception on every invocation
is invoked exactly `r + 1` times by a `with_retry` run and by a
`silent_retry` run. -/
theorem c2_retry_budget (cfg : RetryConfig) (h : 0 ≤ cfg.max_retries)
    (op : Nat → Except PyExc α) (hop : alwaysRetryFail cfg op) :
    (withRetryRun cfg op).calls = cfg.max_retries.toNat + 1 ∧
    (silentRetryRun cfg op).calls = cfg.max_retries.toNat + 1 := by
  rw [withRetryRun_eq_loop cfg op h, silentRetryRun_eq_loop cfg op h]
  exact ⟨(withRetryLoop_fail cfg op hop cfg.max_retries.toNat 0
      (start_invariant cfg h)).1,
    (silentRetryLoop_fail cfg op hop cfg.max_retries.toNat 0
      (start_invariant cfg h)).1⟩

/-- C2, witness: the datastore preset (budget 5) with a permanently
`ConnectionError`-raising operation: 6 invocations each. -/
theorem c2_witness :
    0 ≤ DB_RETRY_CONFIG.max_retries ∧
    alwaysRetryFail DB_RETRY_CONFIG alwaysConnError ∧
    ((withRetryRun DB_RETRY_CONFIG alwaysConnError).calls
       = DB_RETRY_CONFIG.max_retries.toNat + 1 ∧
     (silentRetryRun DB_RETRY_CONFIG alwaysConnError).calls
       = DB_RETRY_CONFIG.max_retries.toNat + 1) :=
  ⟨by decide,
   fun _ => ⟨⟨ExcClass.ConnectionError, 0⟩, rfl, by decide⟩,
   c2_retry_budget DB_RETRY_CONFIG (by decide) alwaysConnError
     (fun _ => ⟨⟨ExcClass.ConnectionError, 0⟩, rfl, by decide⟩)⟩

/-- C3, counterexample: the two executors do not share one fallback
config. On the same permanently-failing operation, `with_retry(None)`
makes 4 invocations (its fallback `DEFAULT_RETRY_CONFIG` has budget 3)
while `silent_retry(None)` makes 6 (its fallback is
`SEARCH_API_RETRY_CONFIG`, budget 5). -/
theorem c3_counterexample :
    (with_retry none alwaysConnError).calls = 4 ∧
    (silent_retry none alwaysConnError).calls = 6 ∧
    DEFAULT_RETRY_CONFIG.max_retries = 3 ∧
    SEARCH_API_RETRY_CONFIG.max_retries = 5 ∧
    decide (DEFAULT_RETRY_CONFIG.max_retries
      = SEARCH_API_RETRY_CONFIG.max_retries) = false :=
  ⟨by decide, by decide, by decide, by decide, by decide⟩

/-- C3, amended: each executor falls back to a module-wide preset when no
config is supplied, but not to the same one: `with_retry` falls back to
`DEFAULT_RETRY_CONFIG` (budget 3) and `silent_retry` to
`SEARCH_API_RETRY_CONFIG` (budget 5). -/
theorem c3_distinct_fallbacks (op : Nat → Except PyExc α) :
    with_retry none op = withRetryRun DEFAULT_RETRY_CONFIG op ∧
    silent_retry none op = silentRetryRun SEARCH_API_RETRY_CONFIG op ∧
    DEFAULT_RETRY_CONFIG.max_retries = 3 ∧
    SEARCH_API_RETRY_CONFIG.max_retries = 5 :=
  ⟨rfl, rfl, by decide, by decide⟩

/-- C4: for every policy with `delay ≥ 0`, `delay_factor ≥ 1` and
`max_delay ≥ delay`, the delay computed before retry `n` equals
`min(delay * delay_factor ^ n, max_delay)`, is monotonically
non-decreasing in `n`, and never exceeds `max_delay`. -/
theorem c4_delay_formula (cfg : RetryConfig) (h0 : 0 ≤ cfg.delay)
    (h1 : 1 ≤ cfg.delay_factor) (h2 : cfg.delay ≤ cfg.max_delay) (n : Nat) :
    delayForAttempt cfg n
      = min (cfg.delay * cfg.delay_factor ^ n) cfg.max_delay ∧
    delayForAttempt cfg n ≤ delayForAttempt cfg (n + 1) ∧
    delayForAttempt cfg n ≤ cfg.max_delay := by
  refine ⟨pymin_eq_min _ _, ?_, ?_⟩
  · simp only [delayForAttempt, pymin_eq_min]
    have hpow : cfg.delay_factor ^ n ≤ cfg.delay_factor ^ (n + 1) :=
      pow_le_pow_right₀ h1 (Nat.le_succ n)
    exact min_le_min (mul_le_mul_of_nonneg_left hpow h0) (le_refl _)
  · simp only [delayForAttempt, pymin_eq_min]
    exact min_le_right _ _

/-- C4, witness: the default config at retry index 0. -/
theorem c4_witness :
    0 ≤ DEFAULT_RETRY_CONFIG.delay ∧
    1 ≤ DEFAULT_RETRY_CONFIG.delay_factor ∧
    DEFAULT_RETRY_CONFIG.delay ≤ DEFAULT_RETRY_CONFIG.max_delay ∧
    (delayForAttempt DEFAULT_RETRY_CONFIG 0
       = min (DEFAULT_RETRY_CONFIG.delay
           * DEFAULT_RETRY_CONFIG.delay_factor ^ 0)
           DEFAULT_RETRY_CONFIG.max_delay ∧
     delayForAttempt DEFAULT_RETRY_CONFIG 0
       ≤ delayForAttempt DEFAULT_RETRY_CONFIG (0 + 1) ∧
     delayForAttempt DEFAULT_RETRY_CONFIG 0
       ≤ DEFAULT_RETRY_CONFIG.max_delay) := by
  have h0 : 0 ≤ DEFAULT_RETRY_CONFIG.delay := by
    norm_num [DEFAULT_RETRY_CONFIG, RetryConfig.init]
  have h1 : 1 ≤ DEFAULT_RETRY_CONFIG.delay_factor := by
    norm_num [DEFAULT_RETRY_CONFIG, RetryConfig.init]
  have h2 : DEFAULT_RETRY_CONFIG.delay ≤ DEFAULT_RETRY_CONFIG.max_delay := by
    norm_num [DEFAULT_RETRY_CONFIG, RetryConfig.init]
  exact ⟨h0, h1, h2, c4_delay_formula DEFAULT_RETRY_CONFIG h0 h1 h2 0⟩

/-- C5: under `silent_retry` with a non-negative budget, an operation that
fails on every attempt — whatever the classification of each failure —
ends in one of the two default-returning branches and the call yields the
configured default value. -/
theorem c5_suppress_default (cfg : RetryConfig) (h : 0 ≤ cfg.max_retries)
    (d : Option α) (op : Nat → Except PyExc α)
    (hop : ∀ k, ∃ e, op k = .error e) :
    silentRetryValue d (silentRetryRun cfg op).outcome = d ∧
    ((silentRetryRun cfg op).outcome = SOutcome.defaulted ∨
     (silentRetryRun cfg op).outcome = SOutcome.fatalDefaulted) := by
  rw [silentRetryRun_eq_loop cfg op h]
  have halt := silentRetryLoop_anyFail cfg op hop cfg.max_retries.toNat 0
    (start_invariant cfg h)
  rcases halt with h1 | h1
  · rw [h1]
    exact ⟨rfl, Or.inl rfl⟩
  · rw [h1]
    exact ⟨rfl, Or.inr rfl⟩

/-- C5, witness: the search preset with a permanently failing operation
and default value `some ()`. -/
theorem c5_witness :
    0 ≤ SEARCH_API_RETRY_CONFIG.max_retries ∧
    (∀ k, ∃ e, alwaysConnError k = Except.error e) ∧
    (silentRetryValue (some ())
       (silentRetryRun SEARCH_API_RETRY_CONFIG alwaysConnError).outcome
       = some () ∧
     ((silentRetryRun SEARCH_API_RETRY_CONFIG alwaysConnError).outcome
        = SOutcome.defaulted ∨
      (silentRetryRun SEARCH_API_RETRY_CONFIG alwaysConnError).outcome
        = SOutcome.fatalDefaulted)) :=
  ⟨by decide, fun _ => ⟨⟨ExcClass.ConnectionError, 0⟩, rfl⟩,
   c5_suppress_default SEARCH_API_RETRY_CONFIG (by decide) (some ())
     alwaysConnError (fun _ => ⟨⟨ExcClass.ConnectionError, 0⟩, rfl⟩)⟩

/-- C6: under `with_retry` with budget `r`, an operation that raises a
retryable exception on each of its first `r` invocations and succeeds on
invocation `r + 1` returns the success value, with exactly `r + 1` total
invocations, the last one successful. -/
theorem c6_propagate_success (cfg : RetryConfig) (r : Nat)
    (hr : cfg.max_retries = (r : Int)) (op : Nat → Except PyExc α) (v : α)
    (hfail : ∀ k, k < r →
      ∃ e, op k = .error e ∧ catches cfg.retry_on_exceptions e = true)
    (hok : op r = .ok v) :
    (withRetryRun cfg op).outcome = POutcome.success v ∧
    (withRetryRun cfg op).calls = r + 1 ∧
    withRetryValue (withRetryRun cfg op).outcome = Except.ok (some v) := by
  have h0 : 0 ≤ cfg.max_retries := by omega
  have hres := withRetryLoop_succeeds cfg op v r 0 (by omega)
    (fun k _ hk2 => hfail k (by omega))
    (by rw [Nat.zero_add]; exact hok)
  have hn : cfg.max_retries.toNat = r := by omega
  rw [withRetryRun_eq_loop cfg op h0, hn]
  refine ⟨hres.1, hres.2, ?_⟩
  rw [hres.1]
  rfl

/-- C6, witness: the default config (budget 3) with an operation failing
on invocations 0, 1, 2 and succeeding on invocation 3. -/
theorem c6_witness :
    DEFAULT_RETRY_CONFIG.max_retries = ((3 : Nat) : Int) ∧
    (∀ k, k < 3 → ∃ e, connThenOk k = Except.error e ∧
      catches DEFAULT_RETRY_CONFIG.retry_on_exceptions e = true) ∧
    connThenOk 3 = Except.ok () ∧
    ((withRetryRun DEFAULT_RETRY_CONFIG connThenOk).outcome
       = POutcome.success () ∧
     (withRetryRun DEFAULT_RETRY_CONFIG connThenOk).calls = 3 + 1 ∧
     withRetryValue (withRetryRun DEFAULT_RETRY_CONFIG connThenOk).outcome
       = Except.ok (some ())) :=
  ⟨by decide,
   fun k hk => ⟨⟨ExcClass.ConnectionError, k⟩, by simp [connThenOk, hk], rfl⟩,
   rfl,
   c6_propagate_success DEFAULT_RETRY_CONFIG 3 (by decide) connThenOk ()
     (fun k hk =>
       ⟨⟨ExcClass.ConnectionError, k⟩, by simp [connThenOk, hk], rfl⟩)
     rfl⟩

/-- C7: for every policy with a non-negative budget, a wrapped run never
terminates by falling through the loop: it ends in one of the specified
exits (success, re-raise for `with_retry`, default return for
`silent_retry`). -/
theorem c7_no_fallthrough (cfg : RetryConfig) (h : 0 ≤ cfg.max_retries)
    (op : Nat → Except PyExc α) :
    ((withRetryRun cfg op).outcome).viaFallthrough = false ∧
    ((silentRetryRun cfg op).outcome).viaFallthrough = false := by
  rw [withRetryRun_eq_loop cfg op h, silentRetryRun_eq_loop cfg op h]
  exact ⟨POutcome.viaFallthrough_of_ne_p _
      (withRetryLoop_no_fallthrough cfg op cfg.max_retries.toNat 0
        (start_invariant cfg h)),
    SOutcome.viaFallthrough_of_ne_s _
      (silentRetryLoop_no_fallthrough cfg op cfg.max_retries.toNat 0
        (start_invariant cfg h))⟩

/-- C7, witness: the default config with the fails-then-succeeds
operation. -/
theorem c7_witness :
    0 ≤ DEFAULT_RETRY_CONFIG.max_retries ∧
    (((withRetryRun DEFAULT_RETRY_CONFIG connThenOk).outcome).viaFallthrough
       = false ∧
     ((silentRetryRun DEFAULT_RETRY_CONFIG connThenOk).outcome).viaFallthrough
       = false) :=
  ⟨by decide, c7_no_fallthrough DEFAULT_RETRY_CONFIG (by decide) connThenOk⟩

/-- C8: the three presets carry exactly the tuned values of the spec's
table: LLM 6/60s/2.0/600s, search 5/2s/1.6/25s, datastore 5/1s/1.5/10s. -/
theorem c8_preset_values :
    LLM_RETRY_CONFIG.max_retries = 6 ∧ LLM_RETRY_CONFIG.delay = 60 ∧
    LLM_RETRY_CONFIG.delay_factor = 2 ∧ LLM_RETRY_CONFIG.max_delay = 600 ∧
    SEARCH_API_RETRY_CONFIG.max_retries = 5 ∧
    SEARCH_API_RETRY_CONFIG.delay = 2 ∧
    SEARCH_API_RETRY_CONFIG.delay_factor = 1.6 ∧
    SEARCH_API_RETRY_CONFIG.max_delay = 25 ∧
    DB_RETRY_CONFIG.max_retries = 5 ∧ DB_RETRY_CONFIG.delay = 1 ∧
    DB_RETRY_CONFIG.delay_factor = 1.5 ∧ DB_RETRY_CONFIG.max_delay = 10 := by
  norm_num [LLM_RETRY_CONFIG, SEARCH_API_RETRY_CONFIG, DB_RETRY_CONFIG,
    RetryConfig.init]

/-- C9: the default tuple contains the base class `Exception`, so every
exception that is an instance of `Exception` is caught as retryable; the
default config and all three presets use that tuple, and under them the
non-retryable branch of `with_retry` and of `silent_retry` is
unreachable. -/
theorem c9_default_tuple_catches_all :
    ExcClass.Exception ∈ defaultRetryOn ∧
    (∀ e : PyExc, isInstance e ExcClass.Exception = true) ∧
    (∀ e : PyExc, catches defaultRetryOn e = true) ∧
    DEFAULT_RETRY_CONFIG.retry_on_exceptions = defaultRetryOn ∧
    LLM_RETRY_CONFIG.retry_on_exceptions = defaultRetryOn ∧
    SEARCH_API_RETRY_CONFIG.retry_on_exceptions = defaultRetryOn ∧
    DB_RETRY_CONFIG.retry_on_exceptions = defaultRetryOn ∧
    (∀ (β : Type) (op : Nat → Except PyExc β),
      ((withRetryRun DEFAULT_RETRY_CONFIG op).outcome).viaFatalBranch
        = false ∧
      ((silentRetryRun DEFAULT_RETRY_CONFIG op).outcome).viaFatalBranch
        = false ∧
      ((withRetryRun LLM_RETRY_CONFIG op).outcome).viaFatalBranch = false ∧
      ((silentRetryRun LLM_RETRY_CONFIG op).outcome).viaFatalBranch = false ∧
      ((withRetryRun SEARCH_API_RETRY_CONFIG op).outcome).viaFatalBranch
        = false ∧
      ((silentRetryRun SEARCH_API_RETRY_CONFIG op).outcome).viaFatalBranch
        = false ∧
      ((withRetryRun DB_RETRY_CONFIG op).outcome).viaFatalBranch = false ∧
      ((silentRetryRun DB_RETRY_CONFIG op).outcome).viaFatalBranch
        = false) := by
  have hcat : ∀ e : PyExc, catches defaultRetryOn e = true := by
    intro e
    cases e with
    | mk c m => cases c <;> rfl
  refine ⟨by decide, ?_, hcat, rfl, rfl, rfl, rfl, ?_⟩
  · intro e
    cases e with
    | mk c m => cases c <;> rfl
  · intro β op
    exact ⟨withRetryLoop_no_fatal DEFAULT_RETRY_CONFIG op hcat _ 0,
      silentRetryLoop_no_fatal DEFAULT_RETRY_CONFIG op hcat _ 0,
      withRetryLoop_no_fatal LLM_RETRY_CONFIG op hcat _ 0,
      silentRetryLoop_no_fatal LLM_RETRY_CONFIG op hcat _ 0,
      withRetryLoop_no_fatal SEARCH_API_RETRY_CONFIG op hcat _ 0,
      silentRetryLoop_no_fatal SEARCH_API_RETRY_CONFIG op hcat _ 0,
      withRetryLoop_no_fatal DB_RETRY_CONFIG op hcat _ 0,
      silentRetryLoop_no_fatal DB_RETRY_CONFIG op hcat _ 0⟩

/-- C10: `RetryConfig` stores its arguments unvalidated; for a config with
`max_retries < 0` the loop `range(max_retries + 1)` is empty, so a wrapped
call returns Python `None` without invoking the operation even once, under
both executors. -/
theorem c10_negative_budget (cfg : RetryConfig) (h : cfg.max_retries < 0)
    (op : Nat → Except PyExc α) (d : Option α) :
    withRetryRun cfg op
      = ⟨POutcome.noneFallthrough, 0, ([] : List ℚ)⟩ ∧
    withRetryValue (withRetryRun cfg op).outcome = Except.ok none ∧
    silentRetryRun cfg op
      = ⟨SOutcome.noneFallthrough, 0, ([] : List ℚ)⟩ ∧
    silentRetryValue d (silentRetryRun cfg op).outcome = none := by
  have hn : (cfg.max_retries + 1).toNat = 0 := by omega
  unfold withRetryRun silentRetryRun
  rw [hn]
  exact ⟨rfl, rfl, rfl, rfl⟩

/-- C10, witness: the constructor accepts `max_retries = -1` and the
wrapped call performs zero invocations and returns `None`, not the default
value `some ()`. -/
theorem c10_witness :
    (RetryConfig.init (-1) 1 2 60 none).max_retries < 0 ∧
    (withRetryRun (RetryConfig.init (-1) 1 2 60 none) alwaysConnError
       = ⟨POutcome.noneFallthrough, 0, ([] : List ℚ)⟩ ∧
     withRetryValue
       (withRetryRun (RetryConfig.init (-1) 1 2 60 none) alwaysConnError).outcome
       = Except.ok none ∧
     silentRetryRun (RetryConfig.init (-1) 1 2 60 none) alwaysConnError
       = ⟨SOutcome.noneFallthrough, 0, ([] : List ℚ)⟩ ∧
     silentRetryValue (some ())
       (silentRetryRun (RetryConfig.init (-1) 1 2 60 none) alwaysConnError).outcome
       = none) :=
  ⟨by decide,
   c10_negative_budget (RetryConfig.init (-1) 1 2 60 none) (by decide)
     alwaysConnError (some ())⟩

end RetryModel
